import Mathlib

/-
Shallow embedding of the data-preparation and aggregation pipeline of the
StreamlitApp25 air-traffic dashboard (utils/prep.py, utils/io.py, utils/viz.py,
app.py and the recovery analysis of sections/deep_dives.py).

Modelling conventions:
  * pandas cell values are modelled by `Val`: a numeric value (as a rational,
    standing for the float), a string, or a missing value (NaN / pd.NA).
  * a pandas column is a dtype together with its list of cells; a DataFrame is
    an ordered association list of named columns.
  * pandas operations that raise are modelled in `Except String`.
  * float parsing (pandas.to_numeric) is modelled on the plain decimal subset
    of the float grammar: optional sign, digits, optional fractional part.
-/

inductive Val where
  | num (q : ℚ)
  | str (s : String)
  | na
deriving DecidableEq, Repr

inductive Dtype where
  | intT
  | floatT
  | objT
deriving DecidableEq, Repr

structure Col where
  dtype : Dtype
  cells : List Val
deriving DecidableEq, Repr

structure DF where
  cols : List (String × Col)
deriving DecidableEq, Repr

def DF.hasCol (df : DF) (name : String) : Bool :=
  df.cols.any (fun nc => nc.1 = name)

def DF.getCol? (df : DF) (name : String) : Option Col :=
  (df.cols.find? (fun nc => nc.1 = name)).map (fun nc => nc.2)

/-- Number of rows: the length of the first column (0 for a frame with no
columns), as every column of a well-formed frame has the same length. -/
def DF.nrows (df : DF) : ℕ :=
  match df.cols with
  | [] => 0
  | nc :: _ => nc.2.cells.length

/-- Column assignment df[name] = col: replace the column in place if it
exists, otherwise append it. -/
def DF.setCol (df : DF) (name : String) (c : Col) : DF :=
  if df.hasCol name then
    ⟨df.cols.map (fun nc => if nc.1 = name then (name, c) else nc)⟩
  else
    ⟨df.cols ++ [(name, c)]⟩

def colCells (df : DF) (name : String) : List Val :=
  match df.getCol? name with
  | some c => c.cells
  | none => []

def isNumericDtype (d : Dtype) : Bool :=
  d = Dtype.intT || d = Dtype.floatT

/-- A whole column of missing values (scalar assignment of pd.NA). -/
def naCol (n : ℕ) : Col :=
  ⟨Dtype.objT, List.replicate n Val.na⟩

def toNumV (v : Val) : Option ℚ :=
  match v with
  | Val.num q => some q
  | _ => none

def notnaV (v : Val) : Bool :=
  match v with
  | Val.na => false
  | _ => true

instance {e a : Type} [DecidableEq e] [DecidableEq a] : DecidableEq (Except e a) := fun x y =>
  match x, y with
  | Except.ok u, Except.ok v => decidable_of_iff (u = v) (by simp)
  | Except.error u, Except.error v => decidable_of_iff (u = v) (by simp)
  | Except.ok _, Except.error _ => isFalse (fun hc => Except.noConfusion hc)
  | Except.error _, Except.ok _ => isFalse (fun hc => Except.noConfusion hc)

/-! ### Numeric string parsing (int() and pandas.to_numeric) -/

def digitsToNat (ds : List Char) : ℕ :=
  ds.foldl (fun a c => a * 10 + (c.toNat - 48)) 0

def allDigits (ds : List Char) : Bool :=
  ds.all (fun c => c.isDigit)

/-- Signed decimal integer literal, as accepted by Python int(str). -/
def parseIntChars (cs : List Char) : Option ℤ :=
  match cs with
  | [] => none
  | '-' :: rest =>
      if rest ≠ [] && allDigits rest then some (-(digitsToNat rest : ℤ)) else none
  | '+' :: rest =>
      if rest ≠ [] && allDigits rest then some ((digitsToNat rest : ℤ)) else none
  | _ =>
      if allDigits cs then some ((digitsToNat cs : ℤ)) else none

def parseIntZ (s : String) : Option ℤ :=
  parseIntChars s.data

/-- Split a character list at the first dot. Returns none when no dot. -/
def splitAtDot : List Char → Option (List Char × List Char)
  | [] => none
  | '.' :: rest => some ([], rest)
  | c :: rest =>
      match splitAtDot rest with
      | some (l, r) => some (c :: l, r)
      | none => none

/-- Unsigned decimal number: digits, digits.digits, digits. or .digits. -/
def parseUnsignedRat (cs : List Char) : Option ℚ :=
  match splitAtDot cs with
  | none =>
      if cs ≠ [] && allDigits cs then some ((digitsToNat cs : ℚ)) else none
  | some (ip, fp) =>
      if (ip ≠ [] || fp ≠ []) && allDigits ip && allDigits fp then
        some ((digitsToNat ip : ℚ) + (digitsToNat fp : ℚ) / ((10 : ℚ) ^ fp.length))
      else none

/-- Signed decimal number: the plain decimal subset of the grammar accepted
by pandas.to_numeric on strings. -/
def parseRat (s : String) : Option ℚ :=
  match s.data with
  | [] => none
  | '-' :: rest => (parseUnsignedRat rest).map (fun q => -q)
  | '+' :: rest => parseUnsignedRat rest
  | cs => parseUnsignedRat cs

/-- Python int(x) truncation toward zero for a float value. -/
def ratTrunc (q : ℚ) : ℤ :=
  q.num.tdiv q.den

/-- astype(int) on one cell: a numeric value truncates, a string parses as an
integer literal, a missing value fails. -/
def cellToInt (v : Val) : Option ℤ :=
  match v with
  | Val.num q => some (ratTrunc q)
  | Val.str s => parseIntZ s
  | Val.na => none

/-! ### Aggregation primitives (pandas groupby sum / mean, skipna) -/

/-- pandas sum over a group: missing values are skipped; an all-missing group
sums to 0. -/
def sumAgg (vs : List Val) : ℚ :=
  (vs.filterMap toNumV).sum

/-- pandas mean over a group: missing values are skipped; an all-missing group
has a missing mean. -/
def meanAgg (vs : List Val) : Val :=
  let xs := vs.filterMap toNumV
  if xs.length = 0 then Val.na else Val.num (xs.sum / (xs.length : ℚ))

/-! ### Generic list utilities (stable sort, first-occurrence dedup) -/

def insertLe {α : Type} (le : α → α → Bool) (x : α) : List α → List α
  | [] => [x]
  | y :: ys => if le x y then x :: y :: ys else y :: insertLe le x ys

def sortLe {α : Type} (le : α → α → Bool) : List α → List α
  | [] => []
  | x :: xs => insertLe le x (sortLe le xs)

def uniq {α : Type} [DecidableEq α] : List α → List α
  | [] => []
  | x :: xs => if x ∈ xs then uniq xs else x :: uniq xs

/-! ### Period decomposition (prep._ensure_year_column, viz.heatmap_seasonality)

Python // and % on integers are floor division and the nonnegative-remainder
modulus, i.e. Int.fdiv and Int.emod for the positive divisor 100. -/

def periodYear (p : ℤ) : ℤ := Int.fdiv p 100

def periodMonth (p : ℤ) : ℤ := Int.emod p 100

def yearCellOf (v : Val) : Val :=
  match cellToInt v with
  | some n => Val.num ((periodYear n : ℤ) : ℚ)
  | none => Val.na

def monthCellOf (v : Val) : Val :=
  match cellToInt v with
  | some n => Val.num ((periodMonth n : ℤ) : ℚ)
  | none => Val.na

/-- The integer-dtype branch of prep._ensure_year_column: year and month
derived by floor division and modulus on the ANMOIS cells. -/
def eycIntBranch (df : DF) (c : Col) : DF :=
  ((df.setCol "year" ⟨Dtype.intT, c.cells.map yearCellOf⟩).setCol
    "month" ⟨Dtype.intT, c.cells.map monthCellOf⟩)

/-- The successful coercion branch: ANMOIS replaced by its integer
conversion, then year and month derived. -/
def eycCoerceBranch (df : DF) (ns : List ℤ) : DF :=
  (((df.setCol "ANMOIS" ⟨Dtype.intT, ns.map (fun n => Val.num (n : ℚ))⟩).setCol
    "year" ⟨Dtype.intT, ns.map (fun n => Val.num ((periodYear n : ℤ) : ℚ))⟩).setCol
    "month" ⟨Dtype.intT, ns.map (fun n => Val.num ((periodMonth n : ℤ) : ℚ))⟩)

/-- The failed coercion branch: year and month set to all-missing. -/
def eycFailBranch (df : DF) : DF :=
  ((df.setCol "year" (naCol df.nrows)).setCol "month" (naCol df.nrows))

/-- The no-ANMOIS branch: only year set, to all-missing. -/
def eycNoColBranch (df : DF) : DF :=
  df.setCol "year" (naCol df.nrows)

/-- prep._ensure_year_column, value level (the aliasing behaviour of the
branches is modelled separately by ensure_year_column_H on a heap). -/
def ensure_year_column (df : DF) : DF :=
  match df.getCol? "ANMOIS" with
  | some c =>
      if c.dtype = Dtype.intT then eycIntBranch df c
      else
        match c.cells.mapM cellToInt with
        | some ns => eycCoerceBranch df ns
        | none => eycFailBranch df
  | none => eycNoColBranch df

/-! ### Filters (prep.make_tables / prep.filter_and_make) -/

structure Filters where
  yearMin : Option ℤ := none
  yearMax : Option ℤ := none
  countries : List String := []
  nationality : Option String := none
deriving DecidableEq, Repr

/-- Keep the rows of every column selected by the boolean mask. -/
def applyMask (df : DF) (m : List Bool) : DF :=
  ⟨df.cols.map (fun nc =>
    (nc.1, ⟨nc.2.dtype,
      ((nc.2.cells.zip m).filterMap (fun p => if p.2 then some p.1 else none))⟩))⟩

/-- df[(df[year] >= ymin) & (df[year] <= ymax)]: comparing a missing or
non-numeric cell with an integer produces a non-boolean mask entry, which
pandas rejects when indexing. -/
def yearMask (cells : List Val) (ymin ymax : ℤ) : Except String (List Bool) :=
  cells.mapM (fun v =>
    match v with
    | Val.num q => Except.ok (decide ((ymin : ℚ) ≤ q) && decide (q ≤ (ymax : ℚ)))
    | _ => Except.error "ValueError: cannot mask with an array containing NA values")

/-- Series.isin(allow): a missing or numeric cell is never a member of a list
of country strings. -/
def isinMask (cells : List Val) (allow : List String) : List Bool :=
  cells.map (fun v =>
    match v with
    | Val.str s => allow.contains s
    | _ => false)

/-- Series == value for a string scalar: a missing or numeric cell compares
unequal. -/
def eqMask (cells : List Val) (x : String) : List Bool :=
  cells.map (fun v =>
    match v with
    | Val.str s => s = x
    | _ => false)

/-- The filter block of prep.make_tables. -/
def applyFilters (df : DF) (f : Filters) : Except String DF := do
  let d1 ← (match f.yearMin, f.yearMax with
    | some a, some b =>
        (match df.getCol? "year" with
         | some c => (yearMask c.cells a b).map (applyMask df)
         | none => Except.error "KeyError: year")
    | _, _ => Except.ok df)
  let d2 := if f.countries ≠ [] then
      (match d1.getCol? "CIE_PAYS" with
       | some c => applyMask d1 (isinMask c.cells f.countries)
       | none => d1)
    else d1
  let d3 := (match f.nationality with
    | some nat =>
        (match d2.getCol? "CIE_NAT" with
         | some c => applyMask d2 (eqMask c.cells nat)
         | none => d2)
    | none => d2)
  pure d3

/-! ### Metric column choice (prep.make_tables) -/

/-- "metric and metric in df.columns and is_numeric_dtype(df[metric])". -/
def metricValid (df : DF) (metric : Option String) : Bool :=
  match metric with
  | some m =>
      m ≠ "" &&
      (match df.getCol? m with
       | some c => isNumericDtype c.dtype
       | none => false)
  | none => false

/-- The fallback of prep.make_tables: CIE_PAX when that column exists
(numeric or not), else the first numeric column, else nothing. -/
def fallbackMetricCol (df : DF) : Option String :=
  if df.hasCol "CIE_PAX" then some "CIE_PAX"
  else (df.cols.find? (fun nc => isNumericDtype nc.2.dtype)).map (fun nc => nc.1)

def metricColChoice (df : DF) (metric : Option String) : Option String :=
  if metricValid df metric then metric else fallbackMetricCol df

/-! ### Grouped tables (prep.make_tables) -/

/-- Ordering of group keys: pandas groupby sorts keys ascending. Cells of one
key column have one runtime type in practice; across constructors the order is
by constructor tag. -/
def valLe (a b : Val) : Bool :=
  match a, b with
  | Val.num x, Val.num y => decide (x ≤ y)
  | Val.num _, _ => true
  | Val.str _, Val.num _ => false
  | Val.str x, Val.str y => decide (x ≤ y)
  | Val.str _, Val.na => true
  | Val.na, Val.na => true
  | Val.na, _ => false

def pairLe (a b : Val × Val) : Bool :=
  if a.1 = b.1 then valLe a.2 b.2 else valLe a.1 b.1

/-- Distinct group keys in ascending order; rows with a missing key are
dropped (pandas groupby dropna). -/
def groupKeys (keys : List Val) : List Val :=
  sortLe valLe (uniq (keys.filter notnaV))

/-- Metric values of the group of key k (keys and metric column zipped
row-wise). -/
def groupVals (keys vals : List Val) (k : Val) : List Val :=
  ((keys.zip vals).filter (fun p => p.1 = k)).map (fun p => p.2)

def groupSum (keys vals : List Val) (k : Val) : ℚ :=
  sumAgg (groupVals keys vals k)

/-- df.groupby(year)[metric].sum().reset_index(), guarded as in the source:
the year column must exist, have some non-missing entry, and a metric column
must have been chosen. -/
def timeseriesTbl (df : DF) (mcol : Option String) : List (Val × ℚ) :=
  match mcol with
  | some m =>
      if df.hasCol "year" && (colCells df "year").any notnaV then
        (groupKeys (colCells df "year")).map
          (fun k => (k, groupSum (colCells df "year") (colCells df m) k))
      else []
  | none => []

/-- x.dropna().astype(str).iloc[0] if x.dropna().size > 0 else None. -/
def firstNonNullStr (vs : List Val) : Option String :=
  match vs.filter notnaV with
  | [] => none
  | v :: _ =>
      match v with
      | Val.str s => some s
      | Val.num q => some (toString q)
      | Val.na => none

structure RegionRow where
  key : Val
  value : ℚ
  en : Option String
  iso3 : Option String
deriving DecidableEq, Repr

/-- df.groupby(CIE_PAYS).agg({metric: sum, names: first non-null})
.sort_values(metric, ascending=False). -/
def byRegionTbl (df : DF) (mcol : Option String) : List RegionRow :=
  match mcol with
  | some m =>
      if df.hasCol "CIE_PAYS" then
        let keys := colCells df "CIE_PAYS"
        let rows := (groupKeys keys).map (fun k =>
          { key := k
            value := groupSum keys (colCells df m) k
            en := if df.hasCol "CIE_PAYS_EN" then
                    firstNonNullStr (groupVals keys (colCells df "CIE_PAYS_EN") k)
                  else none
            iso3 := if df.hasCol "CIE_PAYS_ISO3" then
                      firstNonNullStr (groupVals keys (colCells df "CIE_PAYS_ISO3") k)
                    else none : RegionRow })
        sortLe (fun a b => decide (b.value ≤ a.value)) rows
      else []
  | none => []

/-- df[[lat, lon, metric]].groupby([lat, lon]).sum().reset_index(); rows with
a missing key component are dropped. -/
def geoTbl (df : DF) (mcol : Option String) : List ((Val × Val) × ℚ) :=
  match mcol with
  | some m =>
      if df.hasCol "lat" && df.hasCol "lon" then
        let keys := (colCells df "lat").zip (colCells df "lon")
        let good := keys.filter (fun p => notnaV p.1 && notnaV p.2)
        (sortLe pairLe (uniq good)).map (fun k =>
          (k, sumAgg ((( keys.zip (colCells df m)).filter
                (fun p => p.1 = k)).map (fun p => p.2))))
      else []
  | none => []

structure Tables where
  timeseries : List (Val × ℚ)
  byRegion : List RegionRow
  geo : List ((Val × Val) × ℚ)
deriving DecidableEq, Repr

def buildTables (d : DF) (mcol : Option String) : Tables :=
  { timeseries := timeseriesTbl d mcol
    byRegion := byRegionTbl d mcol
    geo := geoTbl d mcol }

/-- prep.make_tables: copy, derive year/month, filter, choose metric column,
build the three aggregate tables. -/
def make_tables (df : DF) (f : Filters) (metric : Option String) : Except String Tables := do
  let d := ensure_year_column df
  let d ← applyFilters d f
  pure (buildTables d (metricColChoice d metric))

/-- The filter dict built at the top of prep.filter_and_make: the year bounds
are stored only when both are given, countries and nationality only when
non-empty (an empty list or value never reaches the dict). -/
def mkFilters (yearMin yearMax : Option ℤ) (countries : List String)
    (nationality : Option String) : Filters :=
  { yearMin := if yearMin.isSome && yearMax.isSome then yearMin else none
    yearMax := if yearMin.isSome && yearMax.isSome then yearMax else none
    countries := countries
    nationality := nationality }

/-- The df_filtered chain at the end of prep.filter_and_make. Unlike the
filter block of make_tables, the countries branch indexes df_filtered with
the CIE_PAYS column unconditionally, so a missing column is a KeyError. -/
def kpiFilter (dfil : DF) (f : Filters) : Except String DF := do
  let d1 ← (match f.yearMin, f.yearMax with
    | some a, some b =>
        (match dfil.getCol? "year" with
         | some c => (yearMask c.cells a b).map (applyMask dfil)
         | none => Except.error "KeyError: year")
    | _, _ => Except.ok dfil)
  let d2 ← (if f.countries ≠ [] then
      (match d1.getCol? "CIE_PAYS" with
       | some c => Except.ok (applyMask d1 (isinMask c.cells f.countries))
       | none => Except.error "KeyError: CIE_PAYS")
    else Except.ok d1)
  pure (match f.nationality with
    | some nat =>
        (match d2.getCol? "CIE_NAT" with
         | some c => applyMask d2 (eqMask c.cells nat)
         | none => d2)
    | none => d2)

/-- prep.filter_and_make: build the filter dict, delegate to make_tables, and
filter a copy of the frame for KPI use. -/
def filter_and_make (df : DF) (yearMin yearMax : Option ℤ) (countries : List String)
    (metric : Option String) (nationality : Option String) :
    Except String (DF × Tables) := do
  let d := ensure_year_column df
  let f := mkFilters yearMin yearMax countries nationality
  let tables ← make_tables d f metric
  let dfil ← kpiFilter (ensure_year_column d) f
  pure (dfil, tables)

/-! ### Recovery analysis (sections/deep_dives.py)

The analysis starts from the French-carrier rows after
pd.to_numeric(df_fr[metric], errors=coerce): each row carries a company
label, an integer year and a numeric-or-missing metric value. -/

structure CRow where
  company : String
  year : ℤ
  val : Val
deriving DecidableEq, Repr

/-- Skipna sum of the metric over the rows of one (company, year) group. -/
def sumOver (rows : List CRow) (e : String) (y : ℤ) : ℚ :=
  sumAgg ((rows.filter (fun r => r.company = e && r.year = y)).map (fun r => r.val))

/-- Code-point lexicographic strict order on character lists (the Python
string order). -/
def charListLt : List Char → List Char → Bool
  | [], [] => false
  | [], _ :: _ => true
  | _ :: _, [] => false
  | a :: as, b :: bs =>
      if a.toNat < b.toNat then true
      else if b.toNat < a.toNat then false
      else charListLt as bs

def strLe (a b : String) : Bool := charListLt a.data b.data || a = b

def cyLe (a b : String × ℤ) : Bool :=
  if a.1 = b.1 then decide (a.2 ≤ b.2) else strLe a.1 b.1

/-- df_fr.groupby([company, year])[metric].sum().reset_index(): one row per
distinct key, keys sorted ascending, value the skipna sum of the group. -/
def aggCY (rows : List CRow) : List ((String × ℤ) × ℚ) :=
  (sortLe cyLe (uniq (rows.map (fun r => (r.company, r.year))))).map
    (fun k => (k, sumOver rows k.1 k.2))

/-- agg[agg.year == y].set_index(company)[metric] as a partial lookup. -/
def seriesLookup (agg : List ((String × ℤ) × ℚ)) (e : String) (y : ℤ) : Option ℚ :=
  (agg.find? (fun p => p.1 = (e, y))).map (fun p => p.2)

/-- sorted(agg[year].dropna().unique()). -/
def recoveryYearsList (rows : List CRow) : List ℤ :=
  sortLe (fun a b => decide (a ≤ b)) (uniq (rows.map (fun r => r.year)))

/-- baseline_year = 2019 if present else the earliest year; latest_year = the
last year; none when no yearly data. -/
def recoveryYears (rows : List CRow) : Option (ℤ × ℤ) :=
  match recoveryYearsList rows with
  | [] => none
  | y :: ys =>
      some (if (2019 : ℤ) ∈ y :: ys then 2019 else y, (y :: ys).getLast (by simp))

/-- deep_dives.safe_pct over the baseline and latest totals of one row; the
float positive infinity is the dedicated constructor of Pct. -/
inductive Pct where
  | inf
  | val (q : ℚ)
deriving DecidableEq, Repr

def safe_pct (b l : ℚ) : Pct :=
  if b = 0 then (if 0 < l then Pct.inf else Pct.val 0)
  else Pct.val (l / b * 100)

structure RRec where
  company : String
  base : ℚ
  latest : ℚ
  delta : ℚ
  pct : Pct
deriving DecidableEq, Repr

/-- Companies of the groups of one year, in index order (the groupby output is
sorted by company, so this list is sorted and duplicate-free). -/
def yearCompanies (agg : List ((String × ℤ) × ℚ)) (y : ℤ) : List String :=
  (agg.filter (fun p => p.1.2 = y)).map (fun p => p.1.1)

/-- pd.concat([base, last], axis=1): the union of the two sorted indexes,
sorted. -/
def entityUnion (agg : List ((String × ℤ) × ℚ)) (byr lyr : ℤ) : List String :=
  sortLe strLe (uniq (yearCompanies agg byr ++ yearCompanies agg lyr))

/-- df_recovery: per entity of the union, the fillna(0) baseline and latest
totals, abs_delta and pct_recovered = safe_pct. -/
def recoveryTable (rows : List CRow) (byr lyr : ℤ) : List RRec :=
  let agg := aggCY rows
  (entityUnion agg byr lyr).map (fun e =>
    let b := (seriesLookup agg e byr).getD 0
    let l := (seriesLookup agg e lyr).getD 0
    { company := e, base := b, latest := l, delta := l - b, pct := safe_pct b l })

/-- df_recovery.sort_values(latest, ascending=False).head(top_n). -/
def topCompanies (rows : List CRow) (byr lyr : ℤ) (n : ℕ) : List RRec :=
  (sortLe (fun a b => decide (b.latest ≤ a.latest)) (recoveryTable rows byr lyr)).take n

/-- Float comparison with the pct column: positive infinity is greater than
or equal to every value. -/
def pctLe (a b : Pct) : Bool :=
  match a, b with
  | _, Pct.inf => true
  | Pct.inf, Pct.val _ => false
  | Pct.val x, Pct.val y => decide (x ≤ y)

/-- best = top_companies.sort_values(pct_recovered, ascending=False).head(3):
no filtering of infinite values. -/
def bestOf (t : List RRec) : List RRec :=
  (sortLe (fun a b => pctLe b.pct a.pct) t).take 3

/-- numeric_pct = top_companies[pct_recovered != inf];
worst = numeric_pct.sort_values(pct_recovered, ascending=True).head(3). -/
def worstOf (t : List RRec) : List RRec :=
  (sortLe (fun a b => pctLe a.pct b.pct) (t.filter (fun r => r.pct ≠ Pct.inf))).take 3

/-- infers = top_companies[pct_recovered == inf]. -/
def infersOf (t : List RRec) : List RRec :=
  t.filter (fun r => r.pct = Pct.inf)

/-! ### Column normalization on ingest (utils/io.py, fetch_and_cache)

For every object-dtype column the source stringifies the cells (so a missing
float becomes the text nan), replaces non-breaking spaces, strips surrounding
whitespace, builds a numeric candidate by removing spaces and turning the
comma into a dot, converts with pandas.to_numeric(errors=coerce), and keeps
the converted column iff converted.notna().mean() > 0.5 — a mean taken over
ALL cells of the column. -/

def nbspChar : Char := Char.ofNat 160

/-- str(x) of a raw cell: a missing value prints as nan. -/
def stringifyCell (v : Option String) : String :=
  match v with
  | some s => s
  | none => "nan"

/-- str.strip(): drop unicode whitespace from both ends. -/
def trimChars (cs : List Char) : List Char :=
  ((cs.dropWhile (fun c => c.isWhitespace)).reverse.dropWhile
    (fun c => c.isWhitespace)).reverse

/-- .str.replace(nbsp, one space).str.strip(). -/
def cleanBase (s : String) : String :=
  ⟨trimChars (s.data.map (fun c => if c = nbspChar then ' ' else c))⟩

/-- .str.replace(one space, empty).str.replace(comma, dot). -/
def numericCandidate (s : String) : String :=
  ⟨(s.data.filter (fun c => c ≠ ' ')).map (fun c => if c = ',' then '.' else c)⟩

/-- The converted series of one raw column. -/
def convertedOf (col : List (Option String)) : List (Option ℚ) :=
  col.map (fun v => parseRat (numericCandidate (cleanBase (stringifyCell v))))

/-- The per-column normalization loop body of io.fetch_and_cache. -/
def normalizeColumn (col : List (Option String)) : Col :=
  let s := col.map (fun v => cleanBase (stringifyCell v))
  let conv := convertedOf col
  if 2 * conv.countP (fun o => o.isSome) > conv.length then
    ⟨Dtype.floatT, conv.map (fun o => (o.map Val.num).getD Val.na)⟩
  else
    ⟨Dtype.objT, s.map Val.str⟩

/-- Count of non-null raw cells (the denominator the spec sentence uses). -/
def nonNullCount (col : List (Option String)) : ℕ :=
  col.countP (fun v => v.isSome)

/-- Count of non-null raw cells whose normalized text parses as a number. -/
def parsedNonNullCount (col : List (Option String)) : ℕ :=
  col.countP (fun v =>
    match v with
    | some s => (parseRat (numericCandidate (cleanBase s))).isSome
    | none => false)

/-- Count of cells, null ones included, whose stringified normalized text
parses as a number (the denominator the code actually uses is the full column
length). -/
def parsedAllCount (col : List (Option String)) : ℕ :=
  col.countP (fun v => (parseRat (numericCandidate (cleanBase (stringifyCell v)))).isSome)

/-! ### Derived ratio metrics (app.py, df_with_metrics block) -/

/-- Series.replace({0: pd.NA}) on one cell. -/
def replaceZeroNA (v : Val) : Val :=
  match v with
  | Val.num q => if q = 0 then Val.na else Val.num q
  | _ => v

/-- Row-wise float division: any missing operand gives a missing result. -/
def divVals (a b : Val) : Val :=
  match a, b with
  | Val.num x, Val.num y => Val.num (x / y)
  | _, _ => Val.na

/-- One row of CIE_PAX / CIE_VOL.replace({0: pd.NA}) (and likewise for
FRP_PER_PAX). -/
def deriveRatioCell (numv denv : Val) : Val :=
  divVals numv (replaceZeroNA denv)

/-- The df_with_metrics block of app.py: the requested derived metric is
added as a new float column; any other metric leaves the frame unchanged. -/
def df_with_metrics (df : DF) (metric : Option String) : DF :=
  if metric = some "PAX_PER_VOL" then
    df.setCol "PAX_PER_VOL"
      ⟨Dtype.floatT, List.zipWith deriveRatioCell (colCells df "CIE_PAX") (colCells df "CIE_VOL")⟩
  else if metric = some "FRP_PER_PAX" then
    df.setCol "FRP_PER_PAX"
      ⟨Dtype.floatT, List.zipWith deriveRatioCell (colCells df "CIE_FRP") (colCells df "CIE_PAX")⟩
  else df

/-! ### Seasonality matrix (utils/viz.py, heatmap_seasonality)

The chart-drawing part is out of scope; the model returns the reindexed
year-by-month pivot that the chart is drawn from. The early informational
returns of the source are modelled as ok none; the uncaught TypeError of
the floor division on an unconvertible ANMOIS column is an error. -/

/-- The (year, month) keyed rows of tmp after the astype attempt, the year
and month derivation and the years_limit restriction. -/
def tmpRows (df : DF) (metric : String) (yearsLimit : Option ℕ) :
    Except String (List ((ℤ × ℤ) × Val)) :=
  match (colCells df "ANMOIS").mapM cellToInt with
  | none => Except.error "TypeError: unsupported operand type for the floor division"
  | some ns =>
      let rows := List.zipWith (fun n v => ((periodYear n, periodMonth n), v))
        ns (colCells df metric)
      match yearsLimit with
      | some k =>
          if 0 < k then
            let maxY := ((ns.map periodYear).max?).getD 0
            Except.ok (rows.filter (fun r =>
              decide (maxY - (k - 1 : ℕ) ≤ r.1.1) && decide (r.1.1 ≤ maxY)))
          else Except.ok rows
      | none => Except.ok rows

def zzLe (a b : ℤ × ℤ) : Bool :=
  if a.1 = b.1 then decide (a.2 ≤ b.2) else decide (a.1 ≤ b.1)

/-- Aggregated value of a (year, month) group, by the chosen function. -/
def heatAggVal (rows : List ((ℤ × ℤ) × Val)) (aggfunc : String) (k : ℤ × ℤ) : Val :=
  let vs := (rows.filter (fun p => p.1 = k)).map (fun p => p.2)
  if aggfunc = "mean" then meanAgg vs else Val.num (sumAgg vs)

/-- One pivot cell after reindex(columns=1..12): missing when the (year,
month) group does not exist. -/
def heatCell (rows : List ((ℤ × ℤ) × Val)) (aggfunc : String) (y m : ℤ) : Val :=
  if (y, m) ∈ rows.map (fun p => p.1) then heatAggVal rows aggfunc (y, m)
  else Val.na

/-- The reindexed pivot: one row per year present in the grouped data, always
twelve month columns 1..12. -/
def heatPivot (rows : List ((ℤ × ℤ) × Val)) (aggfunc : String) : List (ℤ × List Val) :=
  let years := sortLe (fun a b => decide (a ≤ b)) (uniq (rows.map (fun p => p.1.1)))
  years.map (fun y =>
    (y, (List.range' 1 12).map (fun (mm : ℕ) => heatCell rows aggfunc y (mm : ℤ))))

/-- viz.heatmap_seasonality up to the chart call: ok none models the early
informational returns (empty frame, metric or ANMOIS column absent, all-NaN
pivot). -/
def heatmap_seasonality (df : DF) (metric : String) (aggfunc : String)
    (yearsLimit : Option ℕ) : Except String (Option (List (ℤ × List Val))) :=
  if df.nrows = 0 then Except.ok none
  else if ¬df.hasCol metric then Except.ok none
  else if ¬df.hasCol "ANMOIS" then Except.ok none
  else
    match tmpRows df metric yearsLimit with
    | Except.error e => Except.error e
    | Except.ok rows =>
        if (heatPivot rows aggfunc).all (fun r => r.2.all (fun v => v = Val.na)) then
          Except.ok none
        else Except.ok (some (heatPivot rows aggfunc))

/-! ### Object heap model (frame effects of prep.py)

Python frames are heap objects passed by reference. A heap is a list of frame
values and a reference is an index; df.copy() allocates a fresh object, an
in-place column assignment writes through the reference. This makes the
difference observable between the branches of _ensure_year_column that copy
before assigning and the no-ANMOIS branch that assigns into its argument. -/

def readH (h : List DF) (r : ℕ) : DF := h.getD r ⟨[]⟩

def writeH (h : List DF) (r : ℕ) (d : DF) : List DF := h.set r d

def allocH (h : List DF) (d : DF) : List DF × ℕ := (h ++ [d], h.length)

/-- prep._ensure_year_column on the heap. The two ANMOIS branches rebind df
to a fresh copy before assigning columns; the no-ANMOIS branch assigns the
year column into the argument object itself. -/
def ensure_year_column_H (h : List DF) (r : ℕ) : List DF × ℕ :=
  let df := readH h r
  match df.getCol? "ANMOIS" with
  | some c =>
      if c.dtype = Dtype.intT then
        let a := allocH h df
        (writeH a.1 a.2 (eycIntBranch df c), a.2)
      else
        let a := allocH h df
        match c.cells.mapM cellToInt with
        | some ns => (writeH a.1 a.2 (eycCoerceBranch df ns), a.2)
        | none => (writeH a.1 a.2 (eycFailBranch df), a.2)
  | none => (writeH h r (eycNoColBranch df), r)

/-- prep.make_tables on the heap: the frame is copied first, the copy is
decomposed in place, and the filter and aggregation steps build fresh
frames. -/
def make_tables_H (h : List DF) (r : ℕ) (f : Filters) (metric : Option String) :
    List DF × Except String Tables :=
  let a := allocH h (readH h r)
  let e := ensure_year_column_H a.1 a.2
  let d := readH e.1 e.2
  (e.1, (applyFilters d f).map (fun d2 => buildTables d2 (metricColChoice d2 metric)))

/-- prep.filter_and_make on the heap: ensure on a copy, delegate to
make_tables, copy again for the KPI frame, ensure on that copy, then the
pure filter chain. -/
def filter_and_make_H (h : List DF) (r : ℕ) (yearMin yearMax : Option ℤ)
    (countries : List String) (metric : Option String) (nationality : Option String) :
    List DF × Except String (DF × Tables) :=
  let a := allocH h (readH h r)
  let e := ensure_year_column_H a.1 a.2
  let d := readH e.1 e.2
  let f := mkFilters yearMin yearMax countries nationality
  let mt := make_tables_H e.1 e.2 f metric
  let a2 := allocH mt.1 d
  let e2 := ensure_year_column_H a2.1 a2.2
  let dfil0 := readH e2.1 e2.2
  (e2.1, do
    let tables ← mt.2
    let dfil ← kpiFilter dfil0 f
    pure (dfil, tables))

/-! ## Supporting lemmas -/

theorem mem_insertLe {α : Type} (le : α → α → Bool) (x : α) (l : List α) (a : α) :
    a ∈ insertLe le x l ↔ a = x ∨ a ∈ l := by
  induction l with
  | nil => simp [insertLe]
  | cons y ys ih =>
      simp only [insertLe]
      by_cases h : le x y = true
      · simp only [if_pos h, List.mem_cons]
      · simp only [if_neg h, List.mem_cons, ih]
        tauto

theorem mem_sortLe {α : Type} (le : α → α → Bool) (l : List α) (a : α) :
    a ∈ sortLe le l ↔ a ∈ l := by
  induction l with
  | nil => simp [sortLe]
  | cons x xs ih =>
      simp only [sortLe, mem_insertLe, ih, List.mem_cons]

theorem mem_uniq {α : Type} [DecidableEq α] (l : List α) (a : α) :
    a ∈ uniq l ↔ a ∈ l := by
  induction l with
  | nil => simp [uniq]
  | cons x xs ih =>
      simp only [uniq]
      by_cases h : x ∈ xs
      · rw [if_pos h, ih]
        simp only [List.mem_cons]
        constructor
        · exact Or.inr
        · rintro (rfl | ha)
          · exact h
          · exact ha
      · rw [if_neg h]
        simp only [List.mem_cons, ih]

theorem length_insertLe {α : Type} (le : α → α → Bool) (x : α) (l : List α) :
    (insertLe le x l).length = l.length + 1 := by
  induction l with
  | nil => rfl
  | cons y ys ih =>
      simp only [insertLe]
      by_cases h : le x y = true
      · simp [if_pos h]
      · simp [if_neg h, ih]

theorem length_sortLe {α : Type} (le : α → α → Bool) (l : List α) :
    (sortLe le l).length = l.length := by
  induction l with
  | nil => rfl
  | cons x xs ih => simp [sortLe, length_insertLe, ih]

theorem sumAgg_nil : sumAgg [] = 0 := rfl

theorem sumAgg_append_na (l1 l2 : List Val) :
    sumAgg (l1 ++ Val.na :: l2) = sumAgg (l1 ++ l2) := by
  simp [sumAgg, List.filterMap_append, List.filterMap_cons, toNumV]

theorem meanAgg_append_na (l1 l2 : List Val) :
    meanAgg (l1 ++ Val.na :: l2) = meanAgg (l1 ++ l2) := by
  simp [meanAgg, List.filterMap_append, List.filterMap_cons, toNumV]

/-- find? over a key-value map of distinct keys built by mapping. -/
theorem find?_map_keyed {α β : Type} [DecidableEq α] (ks : List α) (f : α → β) (k0 : α) :
    ((ks.map (fun k => (k, f k))).find? (fun p => p.1 = k0)) =
      if k0 ∈ ks then some (k0, f k0) else none := by
  induction ks with
  | nil => simp
  | cons k ks ih =>
      simp only [List.map_cons, List.find?_cons]
      by_cases h : k = k0
      · subst h
        simp [List.mem_cons]
      · have hd : (decide ((k, f k).1 = k0)) = false := by simp [h]
        have hne : ¬k0 = k := fun hh => h hh.symm
        simp only [hd, ih, List.mem_cons]
        by_cases h2 : k0 ∈ ks
        · simp [h2]
        · simp [h2, hne]

theorem sumOver_eq_zero_of_no_row (rows : List CRow) (e : String) (y : ℤ)
    (h : (e, y) ∉ rows.map (fun r => (r.company, r.year))) :
    sumOver rows e y = 0 := by
  have hf : rows.filter (fun r => r.company = e && r.year = y) = [] := by
    rw [List.filter_eq_nil_iff]
    intro r hr
    intro hc
    apply h
    simp only [List.mem_map]
    refine ⟨r, hr, ?_⟩
    simp only [Bool.and_eq_true, decide_eq_true_eq] at hc
    exact Prod.ext hc.1 hc.2
  simp [sumOver, hf, sumAgg]

/-- The fillna(0) lookup into the (company, year) aggregate equals the plain
skipna sum over the matching raw rows. -/
theorem seriesLookup_aggCY (rows : List CRow) (e : String) (y : ℤ) :
    ((seriesLookup (aggCY rows) e y).getD 0) = sumOver rows e y := by
  unfold seriesLookup aggCY
  rw [find?_map_keyed]
  by_cases h : (e, y) ∈ sortLe cyLe (uniq (rows.map (fun r => (r.company, r.year))))
  · simp [h]
  · rw [if_neg h]
    rw [mem_sortLe, mem_uniq] at h
    exact (sumOver_eq_zero_of_no_row rows e y h).symm

/- The four arithmetic kernels of Rat are irreducible by default, which
blocks kernel evaluation of concrete rational computations; restore the
default reducibility so that concrete instances evaluate by decide. -/
attribute [local semireducible] Rat.add Rat.mul Rat.inv Rat.sub

/-! ## C1: recovery record totals, delta and percentage -/

/-- C1: for every entity in the recovery table, the baseline and latest
totals are the (entity, year) sum aggregates with a missing total defaulting
to 0, abs_delta is latest minus baseline, and pct_recovered is positive
infinity when the baseline is 0 and the latest total is positive, 0 when the
baseline is 0 otherwise, and latest / baseline * 100 when the baseline is
nonzero. -/
theorem C1_recovery_record (rows : List CRow) (byr lyr : ℤ) (r : RRec)
    (hr : r ∈ recoveryTable rows byr lyr) :
    r.base = sumOver rows r.company byr ∧
    r.latest = sumOver rows r.company lyr ∧
    r.delta = r.latest - r.base ∧
    (r.base = 0 → 0 < r.latest → r.pct = Pct.inf) ∧
    (r.base = 0 → ¬0 < r.latest → r.pct = Pct.val 0) ∧
    (r.base ≠ 0 → r.pct = Pct.val (r.latest / r.base * 100)) := by
  simp only [recoveryTable, List.mem_map] at hr
  obtain ⟨e, _he, rfl⟩ := hr
  simp only [seriesLookup_aggCY]
  refine ⟨trivial, trivial, trivial, ?_, ?_, ?_⟩
  · intro h1 h2
    simp [safe_pct, h1, h2]
  · intro h1 h2
    simp [safe_pct, h1, h2]
  · intro h1
    simp [safe_pct, h1]

def C1rows : List CRow :=
  [⟨"A", 2019, Val.num 200⟩, ⟨"A", 2024, Val.num 100⟩]

def C1rec : RRec := ⟨"A", 200, 100, -100, Pct.val 50⟩

/-- Witness for C1 at a concrete entity with baseline 200 and latest 100. -/
theorem C1_recovery_record_witness :
    C1rec ∈ recoveryTable C1rows 2019 2024 ∧
    (C1rec.base = sumOver C1rows C1rec.company 2019 ∧
     C1rec.latest = sumOver C1rows C1rec.company 2024 ∧
     C1rec.delta = C1rec.latest - C1rec.base ∧
     (C1rec.base = 0 → 0 < C1rec.latest → C1rec.pct = Pct.inf) ∧
     (C1rec.base = 0 → ¬0 < C1rec.latest → C1rec.pct = Pct.val 0) ∧
     (C1rec.base ≠ 0 → C1rec.pct = Pct.val (C1rec.latest / C1rec.base * 100))) :=
  ⟨by decide, C1_recovery_record C1rows 2019 2024 C1rec (by decide)⟩

/-! ## C3: the aggregator on the column [10, missing, 30] -/

/-- C3 counterexample: on the single-group column [10, missing, 30] the sum
reduction yields 40 but the mean reduction yields 20 (the mean of the two
present values), not 15 as the claim states. -/
theorem C3_counterexample :
    ¬(sumAgg [Val.num 10, Val.na, Val.num 30] = 40 ∧
      meanAgg [Val.num 10, Val.na, Val.num 30] = Val.num 15) := by decide

/-- C3 (amended): on the single-group column [10, missing, 30] the sum
reduction yields 40 and the mean reduction yields 20; missing metric values
are excluded from both sum and mean, never counted as zero. -/
theorem C3_aggregation_skips_missing :
    (sumAgg [Val.num 10, Val.na, Val.num 30] = 40 ∧
     meanAgg [Val.num 10, Val.na, Val.num 30] = Val.num 20) ∧
    (∀ l1 l2 : List Val,
      sumAgg (l1 ++ Val.na :: l2) = sumAgg (l1 ++ l2) ∧
      meanAgg (l1 ++ Val.na :: l2) = meanAgg (l1 ++ l2)) :=
  ⟨by decide, fun l1 l2 => ⟨sumAgg_append_na l1 l2, meanAgg_append_na l1 l2⟩⟩

/-! ## C6: period decomposition round trip -/

/-- C6: for every period code of the form year * 100 + month with month
between 1 and 12, the decomposer recovers the year and the month by floor
division and modulus, recomposition reproduces the code exactly, and a
string-encoded period that parses to the same integer is decomposed
identically by the coercion path. -/
theorem C6_period_roundtrip (y m : ℤ) (h1 : 1 ≤ m) (h2 : m ≤ 12) :
    periodYear (y * 100 + m) = y ∧
    periodMonth (y * 100 + m) = m ∧
    periodYear (y * 100 + m) * 100 + periodMonth (y * 100 + m) = y * 100 + m ∧
    (∀ s : String, parseIntZ s = some (y * 100 + m) →
      (cellToInt (Val.str s)).map (fun p => (periodYear p, periodMonth p)) =
        some (y, m)) ∧
    cellToInt (Val.num ((y * 100 + m : ℤ) : ℚ)) = some (y * 100 + m) := by
  have hy : periodYear (y * 100 + m) = y := by
    unfold periodYear
    rw [Int.fdiv_eq_ediv _ (by norm_num)]
    omega
  have hm : periodMonth (y * 100 + m) = m := by
    have h3 : (y * 100 + m) % 100 = m := by omega
    exact h3
  refine ⟨hy, hm, by rw [hy, hm], ?_, ?_⟩
  · intro s hs
    simp [cellToInt, hs, hy, hm]
  · simp only [cellToInt, ratTrunc, Rat.num_intCast, Rat.den_intCast,
      Nat.cast_one, Int.tdiv_one]

/-- Witness for C6 at the period 201903, both as an integer and as the
string 201903. -/
theorem C6_period_roundtrip_witness :
    (1 ≤ (3 : ℤ) ∧ (3 : ℤ) ≤ 12) ∧
    (periodYear (2019 * 100 + 3) = 2019 ∧
     periodMonth (2019 * 100 + 3) = 3 ∧
     periodYear (2019 * 100 + 3) * 100 + periodMonth (2019 * 100 + 3) =
       2019 * 100 + 3 ∧
     (∀ s : String, parseIntZ s = some (2019 * 100 + 3) →
       (cellToInt (Val.str s)).map (fun p => (periodYear p, periodMonth p)) =
         some (2019, 3)) ∧
     cellToInt (Val.num ((2019 * 100 + 3 : ℤ) : ℚ)) = some (2019 * 100 + 3)) :=
  ⟨⟨by decide, by decide⟩, C6_period_roundtrip 2019 3 (by decide) (by decide)⟩

/-! ## C5: numeric-or-text decision of the ingest normalizer -/

theorem countP_convertedOf (col : List (Option String)) :
    (convertedOf col).countP (fun o => o.isSome) = parsedAllCount col := by
  simp only [convertedOf, parsedAllCount, List.countP_map]
  rfl

theorem length_convertedOf (col : List (Option String)) :
    (convertedOf col).length = col.length := by
  simp [convertedOf]

theorem parse_nan_fails :
    (parseRat (numericCandidate (cleanBase (stringifyCell (none : Option String))))).isSome
      = false := by decide

/-- C5 counterexample: the column [1, null, null] has a single non-null
value and it parses, so the claimed non-null fraction criterion says
numeric; the code divides by the full column length (stringified nulls fail
the parse), 1 of 3 does not exceed half, and the column stays text. -/
theorem C5_counterexample :
    ¬((normalizeColumn [some "1", none, none]).dtype = Dtype.floatT ↔
      2 * parsedNonNullCount [some "1", none, none] >
        nonNullCount [some "1", none, none]) := by decide

/-- C5 (amended): a raw column is converted to numeric iff the fraction of
ALL its values (null values stringify to the text nan and fail the parse)
that successfully parse after normalization exceeds 0.5; on conversion
failed individual values become missing, otherwise every value stays as the
trimmed text; an all-null column stays text. -/
theorem C5_column_typing (col : List (Option String)) :
    ((normalizeColumn col).dtype = Dtype.floatT ↔
      2 * parsedAllCount col > col.length) ∧
    ((normalizeColumn col).dtype = Dtype.floatT →
      (normalizeColumn col).cells =
        (convertedOf col).map (fun o => (o.map Val.num).getD Val.na)) ∧
    ((normalizeColumn col).dtype = Dtype.objT →
      (normalizeColumn col).cells =
        col.map (fun v => Val.str (cleanBase (stringifyCell v)))) ∧
    (col.all (fun v => v.isNone) → (normalizeColumn col).dtype = Dtype.objT) := by
  simp only [normalizeColumn]
  by_cases hc : 2 * (convertedOf col).countP (fun o => o.isSome) > (convertedOf col).length
  · rw [if_pos hc]
    rw [countP_convertedOf, length_convertedOf] at hc
    refine ⟨iff_of_true rfl hc, fun _ => rfl, ?_, ?_⟩
    · intro habs
      simp at habs
    · intro hall
      exfalso
      have hz : parsedAllCount col = 0 := by
        rw [parsedAllCount, List.countP_eq_zero]
        intro v hv
        have hvn : v = none := by
          have hvt := List.all_eq_true.mp hall v hv
          cases v with
          | none => rfl
          | some s => simp at hvt
        rw [hvn]
        simp [parse_nan_fails]
      omega
  · rw [if_neg hc]
    rw [countP_convertedOf, length_convertedOf] at hc
    refine ⟨?_, ?_, ?_, fun _ => rfl⟩
    · exact iff_of_false (by simp) hc
    · intro habs
      simp at habs
    · intro _
      simp [List.map_map, Function.comp]

def C5colW : List (Option String) := [none, none]

/-- Witness for C5: a column of two nulls stays text. -/
theorem C5_column_typing_witness :
    (C5colW.all (fun v => v.isNone)) ∧ (normalizeColumn C5colW).dtype = Dtype.objT :=
  ⟨by decide, (C5_column_typing C5colW).2.2.2 (by decide)⟩

/-! ## C8: zero-denominator policy of the derived ratio metrics -/

theorem find?_replace_self (l : List (String × Col)) (n : String) (c : Col)
    (h : l.any (fun nc => nc.1 = n) = true) :
    (l.map (fun nc => if nc.1 = n then (n, c) else nc)).find?
      (fun nc => nc.1 = n) = some (n, c) := by
  induction l with
  | nil => simp at h
  | cons a l ih =>
      simp only [List.any_cons, Bool.or_eq_true, decide_eq_true_eq] at h
      simp only [List.map_cons]
      by_cases ha : a.1 = n
      · simp [ha]
      · rw [if_neg ha]
        rw [List.find?_cons_of_neg _ (by simpa using ha)]
        exact ih (h.resolve_left ha)

theorem find?_append_of_none {α : Type} (p : α → Bool) (l1 l2 : List α)
    (h : l1.find? p = none) : (l1 ++ l2).find? p = l2.find? p := by
  induction l1 with
  | nil => simp
  | cons a l ih =>
      rw [List.find?_cons] at h
      cases hp : p a with
      | true => rw [hp] at h; exact absurd h (by simp)
      | false =>
          rw [hp] at h
          rw [List.cons_append, List.find?_cons_of_neg _ (by simp [hp])]
          exact ih h

theorem getCol?_setCol_self (df : DF) (n : String) (c : Col) :
    (df.setCol n c).getCol? n = some c := by
  unfold DF.setCol DF.hasCol
  by_cases h : df.cols.any (fun nc => nc.1 = n)
  · rw [if_pos h]
    unfold DF.getCol?
    rw [find?_replace_self df.cols n c h]
    rfl
  · rw [if_neg h]
    unfold DF.getCol?
    have hnone : df.cols.find? (fun nc => decide (nc.1 = n)) = none := by
      rw [List.find?_eq_none]
      intro x hx
      simp only [List.any_eq_true] at h
      intro hd
      exact h ⟨x, hx, hd⟩
    rw [find?_append_of_none _ _ _ hnone]
    simp

theorem colCells_setCol_self (df : DF) (n : String) (c : Col) :
    colCells (df.setCol n c) n = c.cells := by
  simp [colCells, getCol?_setCol_self]

theorem getElem?_zipWith' {α β γ : Type} (f : α → β → γ) (l1 : List α) (l2 : List β)
    (i : ℕ) (a : α) (b : β) (h1 : l1[i]? = some a) (h2 : l2[i]? = some b) :
    (List.zipWith f l1 l2)[i]? = some (f a b) := by
  induction l1 generalizing l2 i with
  | nil => simp at h1
  | cons x xs ih =>
      cases l2 with
      | nil => simp at h2
      | cons y ys =>
          cases i with
          | zero =>
              simp only [List.getElem?_cons_zero, Option.some.injEq] at h1 h2
              simp [h1, h2]
          | succ j =>
              simp only [List.getElem?_cons_succ] at h1 h2
              simpa using ih ys j h1 h2

theorem deriveRatioCell_zero (v : Val) : deriveRatioCell v (Val.num 0) = Val.na := by
  cases v <;> simp [deriveRatioCell, replaceZeroNA, divVals]

/-- C8: a zero denominator makes the derived ratio of that row missing (not
an error, not infinity), and a missing value contributes nothing to any
subsequent sum or mean aggregation. -/
theorem C8_zero_denominator (df : DF) (i : ℕ) (pax frp : Val) :
    (∀ v : Val, deriveRatioCell v (Val.num 0) = Val.na) ∧
    (∀ l1 l2 : List Val,
      sumAgg (l1 ++ Val.na :: l2) = sumAgg (l1 ++ l2) ∧
      meanAgg (l1 ++ Val.na :: l2) = meanAgg (l1 ++ l2)) ∧
    ((colCells df "CIE_PAX")[i]? = some pax →
     (colCells df "CIE_VOL")[i]? = some (Val.num 0) →
     (colCells (df_with_metrics df (some "PAX_PER_VOL")) "PAX_PER_VOL")[i]? =
       some Val.na) ∧
    ((colCells df "CIE_FRP")[i]? = some frp →
     (colCells df "CIE_PAX")[i]? = some (Val.num 0) →
     (colCells (df_with_metrics df (some "FRP_PER_PAX")) "FRP_PER_PAX")[i]? =
       some Val.na) := by
  refine ⟨deriveRatioCell_zero,
    fun l1 l2 => ⟨sumAgg_append_na l1 l2, meanAgg_append_na l1 l2⟩, ?_, ?_⟩
  · intro h1 h2
    have : df_with_metrics df (some "PAX_PER_VOL") =
        df.setCol "PAX_PER_VOL"
          ⟨Dtype.floatT, List.zipWith deriveRatioCell
            (colCells df "CIE_PAX") (colCells df "CIE_VOL")⟩ := by
      simp [df_with_metrics]
    rw [this, colCells_setCol_self]
    rw [getElem?_zipWith' deriveRatioCell _ _ i pax (Val.num 0) h1 h2]
    rw [deriveRatioCell_zero]
  · intro h1 h2
    have : df_with_metrics df (some "FRP_PER_PAX") =
        df.setCol "FRP_PER_PAX"
          ⟨Dtype.floatT, List.zipWith deriveRatioCell
            (colCells df "CIE_FRP") (colCells df "CIE_PAX")⟩ := by
      simp [df_with_metrics]
    rw [this, colCells_setCol_self]
    rw [getElem?_zipWith' deriveRatioCell _ _ i frp (Val.num 0) h1 h2]
    rw [deriveRatioCell_zero]

def C8df : DF :=
  ⟨[("CIE_PAX", ⟨Dtype.intT, [Val.num 5]⟩), ("CIE_VOL", ⟨Dtype.intT, [Val.num 0]⟩)]⟩

/-- Witness for C8 at a concrete frame whose single row has 5 passengers
and 0 flights. -/
theorem C8_zero_denominator_witness :
    ((colCells C8df "CIE_PAX")[0]? = some (Val.num 5) ∧
     (colCells C8df "CIE_VOL")[0]? = some (Val.num 0)) ∧
    (colCells (df_with_metrics C8df (some "PAX_PER_VOL")) "PAX_PER_VOL")[0]? =
      some Val.na :=
  ⟨⟨by decide, by decide⟩,
    (C8_zero_denominator C8df 0 (Val.num 5) Val.na).2.2.1 (by decide) (by decide)⟩

/-! ## C4: infinite percentages in the best / worst selections -/

def C4rows : List CRow :=
  [⟨"A", 2024, Val.num 50⟩, ⟨"B", 2019, Val.num 100⟩, ⟨"B", 2024, Val.num 150⟩,
   ⟨"C", 2019, Val.num 200⟩, ⟨"C", 2024, Val.num 100⟩]

/-- C4 counterexample: with carriers A (baseline 0, latest 50, infinite
recovery), B (100 to 150) and C (200 to 100), the best selection is a plain
descending sort of all selected carriers and its first element is A with an
infinite pct_recovered, so the best selection does not exclude infinite
values from the numeric comparison. -/
theorem C4_counterexample :
    ((bestOf (topCompanies C4rows 2019 2024 3)).map
      (fun r => (r.company, r.pct))).head? = some ("A", Pct.inf) := by decide

/-- C4 (amended): only the worst (bottom) selection excludes entities whose
pct_recovered is infinite from the numeric comparison; the best (top)
selection draws from all selected entities, infinite values included, and
infinite-valued entities are still surfaced as the separate new-entity
category. -/
theorem C4_selection_inf_handling (rows : List CRow) (byr lyr : ℤ) (n : ℕ) :
    (∀ r ∈ worstOf (topCompanies rows byr lyr n), r.pct ≠ Pct.inf) ∧
    (∀ r ∈ topCompanies rows byr lyr n, r.pct = Pct.inf →
      r ∈ infersOf (topCompanies rows byr lyr n)) ∧
    (∀ r ∈ bestOf (topCompanies rows byr lyr n), r ∈ topCompanies rows byr lyr n) ∧
    (sortLe (fun a b => pctLe b.pct a.pct) (topCompanies rows byr lyr n)).length =
      (topCompanies rows byr lyr n).length := by
  refine ⟨?_, ?_, ?_, length_sortLe _ _⟩
  · intro r hr
    have hr2 := List.take_subset _ _ hr
    rw [mem_sortLe] at hr2
    have hm := List.mem_filter.mp hr2
    simpa using hm.2
  · intro r hr hinf
    exact List.mem_filter.mpr ⟨hr, by simp [hinf]⟩
  · intro r hr
    have hr2 := List.take_subset _ _ hr
    rw [mem_sortLe] at hr2
    exact hr2

def C4recC : RRec := ⟨"C", 200, 100, -100, Pct.val 50⟩

/-- Witness for C4: carrier C sits in the worst selection and its
pct_recovered is finite. -/
theorem C4_selection_inf_handling_witness :
    C4recC ∈ worstOf (topCompanies C4rows 2019 2024 3) ∧ C4recC.pct ≠ Pct.inf :=
  ⟨by decide, (C4_selection_inf_handling C4rows 2019 2024 3).1 C4recC (by decide)⟩

/-! ## C2: empty tables versus the metric fallback -/

theorem colCells_all_nil (d : DF) (h : ∀ nc ∈ d.cols, nc.2.cells = []) (n : String) :
    colCells d n = [] := by
  unfold colCells DF.getCol?
  cases hf : d.cols.find? (fun nc => decide (nc.1 = n)) with
  | none => simp
  | some nc =>
      have hm := List.mem_of_find?_eq_some hf
      simp [h nc hm]

theorem buildTables_of_nil_cells (d : DF) (h : ∀ nc ∈ d.cols, nc.2.cells = [])
    (mcol : Option String) :
    buildTables d mcol = { timeseries := [], byRegion := [], geo := [] } := by
  have hc := colCells_all_nil d h
  cases mcol with
  | none => rfl
  | some m =>
      simp [buildTables, timeseriesTbl, byRegionTbl, geoTbl, hc, groupKeys, uniq,
        sortLe]

/-- The chosen metric column is nothing when the requested metric is invalid,
CIE_PAX is absent and no column is numeric. -/
theorem metricColChoice_none (d : DF) (metric : Option String)
    (hpax : d.hasCol "CIE_PAX" = false)
    (hnum : ∀ nc ∈ d.cols, isNumericDtype nc.2.dtype = false) :
    metricColChoice d metric = none := by
  have hvalid : metricValid d metric = false := by
    unfold metricValid
    cases metric with
    | none => rfl
    | some m =>
        cases hg : d.getCol? m with
        | none => simp [hg]
        | some c =>
            have hc2 : isNumericDtype c.dtype = false := by
              unfold DF.getCol? at hg
              cases hf : d.cols.find? (fun nc => decide (nc.1 = m)) with
              | none => rw [hf] at hg; simp at hg
              | some nc =>
                  rw [hf] at hg
                  have hnc : nc.2 = c := by simpa using hg
                  rw [← hnc]
                  exact hnum nc (List.mem_of_find?_eq_some hf)
            simp [hg, hc2]
  unfold metricColChoice fallbackMetricCol
  rw [hvalid, hpax]
  have hfind : d.cols.find? (fun nc => isNumericDtype nc.2.dtype) = none := by
    rw [List.find?_eq_none]
    intro nc hm
    simp [hnum nc hm]
  simp [hfind]

def C2df : DF :=
  ⟨[("ANMOIS", ⟨Dtype.intT, [Val.num 201901]⟩),
    ("CIE_PAX", ⟨Dtype.intT, [Val.num 100]⟩)]⟩

/-- C2 counterexample: with the requested metric FOO absent from the frame,
make_tables does not return an empty time series; it falls back to the
CIE_PAX column and aggregates it (the single 2019 row sums to the CIE_PAX
value 100). -/
theorem C2_counterexample :
    (make_tables C2df {} (some "FOO")).map (fun t => t.timeseries) =
      Except.ok [(Val.num 2019, (100 : ℚ))] := by decide

/-- C2 (amended): if the requested metric is absent or non-numeric, the
aggregation falls back to the CIE_PAX column when present and otherwise to
the first numeric column; the time series and regional ranking come back
empty, rather than failing, when no such fallback exists (no CIE_PAX column
and no numeric column) or when no rows remain after filtering. -/
theorem C2_empty_table_conditions :
    (∀ (df : DF) (f : Filters) (metric : Option String) (d2 : DF),
      applyFilters (ensure_year_column df) f = Except.ok d2 →
      d2.hasCol "CIE_PAX" = false →
      (∀ nc ∈ d2.cols, isNumericDtype nc.2.dtype = false) →
      make_tables df f metric =
        Except.ok { timeseries := [], byRegion := [], geo := [] }) ∧
    (∀ (df : DF) (f : Filters) (metric : Option String) (d2 : DF),
      applyFilters (ensure_year_column df) f = Except.ok d2 →
      (∀ nc ∈ d2.cols, nc.2.cells = []) →
      make_tables df f metric =
        Except.ok { timeseries := [], byRegion := [], geo := [] }) ∧
    (∀ (df : DF) (f : Filters) (metric : Option String) (d2 : DF),
      applyFilters (ensure_year_column df) f = Except.ok d2 →
      metricValid d2 metric = false →
      d2.hasCol "CIE_PAX" = true →
      make_tables df f metric = Except.ok (buildTables d2 (some "CIE_PAX"))) ∧
    (∀ (df : DF) (f : Filters) (metric : Option String) (d2 : DF)
        (nc : String × Col),
      applyFilters (ensure_year_column df) f = Except.ok d2 →
      metricValid d2 metric = false →
      d2.hasCol "CIE_PAX" = false →
      d2.cols.find? (fun c => isNumericDtype c.2.dtype) = some nc →
      make_tables df f metric = Except.ok (buildTables d2 (some nc.1))) := by
  refine ⟨?_, ?_, ?_, ?_⟩
  · intro df f metric d2 hfil hpax hnum
    simp only [make_tables, hfil]
    show Except.ok (buildTables d2 (metricColChoice d2 metric)) =
      Except.ok { timeseries := [], byRegion := [], geo := [] }
    rw [metricColChoice_none d2 metric hpax hnum]
    rfl
  · intro df f metric d2 hfil hcells
    simp only [make_tables, hfil]
    show Except.ok (buildTables d2 (metricColChoice d2 metric)) =
      Except.ok { timeseries := [], byRegion := [], geo := [] }
    rw [buildTables_of_nil_cells d2 hcells]
  · intro df f metric d2 hfil hvalid hpax
    simp only [make_tables, hfil]
    show Except.ok (buildTables d2 (metricColChoice d2 metric)) =
      Except.ok (buildTables d2 (some "CIE_PAX"))
    unfold metricColChoice fallbackMetricCol
    rw [hvalid, hpax]
    simp
  · intro df f metric d2 nc hfil hvalid hpax hfind
    simp only [make_tables, hfil]
    show Except.ok (buildTables d2 (metricColChoice d2 metric)) =
      Except.ok (buildTables d2 (some nc.1))
    unfold metricColChoice fallbackMetricCol
    rw [hvalid, hpax, hfind]
    simp

def C2dfW : DF := ⟨[("NAME", ⟨Dtype.objT, [Val.str "x"]⟩)]⟩

def C2dfW2 : DF := ⟨[("CIE_FRP", ⟨Dtype.intT, [Val.num 7]⟩)]⟩

/-- Witness for C2: on a frame with one text column no fallback exists and
every table is empty; on a frame whose only numeric column is CIE_FRP (and
no CIE_PAX), the invalid metric falls back to that first numeric column. -/
theorem C2_empty_table_conditions_witness :
    ((ensure_year_column C2dfW).hasCol "CIE_PAX" = false ∧
     make_tables C2dfW {} (some "FOO") =
       Except.ok { timeseries := [], byRegion := [], geo := [] }) ∧
    ((ensure_year_column C2dfW2).cols.find? (fun c => isNumericDtype c.2.dtype) =
       some ("CIE_FRP", ⟨Dtype.intT, [Val.num 7]⟩) ∧
     make_tables C2dfW2 {} (some "FOO") =
       Except.ok (buildTables (ensure_year_column C2dfW2) (some "CIE_FRP"))) :=
  ⟨⟨by decide,
    C2_empty_table_conditions.1 C2dfW {} (some "FOO") (ensure_year_column C2dfW)
      (by decide) (by decide) (by decide)⟩,
   ⟨by decide,
    C2_empty_table_conditions.2.2.2 C2dfW2 {} (some "FOO") (ensure_year_column C2dfW2)
      ("CIE_FRP", ⟨Dtype.intT, [Val.num 7]⟩)
      (by decide) (by decide) (by decide) (by decide)⟩⟩

/-! ## C7: the core pipeline and missing columns -/

def C7df : DF := ⟨[("A", ⟨Dtype.objT, [Val.str "x"]⟩)]⟩

/-- C7: filter_and_make with an active country filter on a frame without a
CIE_PAYS column raises a KeyError while building the KPI frame (the same
filter is guarded inside make_tables), contradicting the never-raise policy
of the spec. -/
theorem C7_missing_country_column_raises :
    filter_and_make C7df none none ["FR"] none none =
      Except.error "KeyError: CIE_PAYS" := by decide

/-! ## C9: the seasonality matrix always carries twelve month columns -/

/-- C9: whenever the seasonality pivot is produced, every year row has
exactly 12 month cells (months 1 through 12) regardless of which months
appear in the data, and a month with no contributing rows holds the missing
value, distinguished from a true zero. -/
theorem C9_seasonality_matrix (df : DF) (metric aggfunc : String) (yl : Option ℕ)
    (rows : List ((ℤ × ℤ) × Val)) (M : List (ℤ × List Val))
    (hrows : tmpRows df metric yl = Except.ok rows)
    (hM : heatmap_seasonality df metric aggfunc yl = Except.ok (some M)) :
    ∀ r ∈ M, r.2.length = 12 ∧
      (∀ m : ℤ, 1 ≤ m → m ≤ 12 →
        (∀ p ∈ rows, p.1 ≠ (r.1, m)) → r.2[(m - 1).toNat]? = some Val.na) := by
  have hMe : M = heatPivot rows aggfunc := by
    unfold heatmap_seasonality at hM
    simp only [hrows] at hM
    split_ifs at hM <;> simp_all
  subst hMe
  intro r hr
  simp only [heatPivot, List.mem_map] at hr
  obtain ⟨y, _hy, rfl⟩ := hr
  refine ⟨by simp, ?_⟩
  intro m hm1 hm2 hno
  have hj : (m - 1).toNat < 12 := by omega
  have hidx := List.getElem?_range' 1 1 hj
  rw [List.getElem?_map, hidx]
  simp only [Option.map_some']
  have hcast : ((1 + 1 * (m - 1).toNat : ℕ) : ℤ) = m := by omega
  rw [hcast]
  have hmem : (y, m) ∉ rows.map (fun p => p.1) := by
    simp only [List.mem_map]
    rintro ⟨p, hp, hpe⟩
    exact hno p hp hpe
  simp [heatCell, hmem]

def C9df : DF :=
  ⟨[("ANMOIS", ⟨Dtype.intT, [Val.num 202001, Val.num 202003]⟩),
    ("X", ⟨Dtype.intT, [Val.num 5, Val.num 7]⟩)]⟩

def C9rows : List ((ℤ × ℤ) × Val) := [((2020, 1), Val.num 5), ((2020, 3), Val.num 7)]

def C9row : ℤ × List Val :=
  (2020, [Val.num 5, Val.na, Val.num 7, Val.na, Val.na, Val.na, Val.na, Val.na,
          Val.na, Val.na, Val.na, Val.na])

/-- Witness for C9: a frame with data in January and March of 2020 still
produces a row of 12 cells, and February (month 2, with no contributing
rows) holds the missing value. -/
theorem C9_seasonality_matrix_witness :
    (tmpRows C9df "X" none = Except.ok C9rows ∧
     heatmap_seasonality C9df "X" "sum" none = Except.ok (some [C9row])) ∧
    (C9row.2.length = 12 ∧ C9row.2[((2 : ℤ) - 1).toNat]? = some Val.na) :=
  ⟨⟨by decide, by decide⟩,
    let h := C9_seasonality_matrix C9df "X" "sum" none C9rows [C9row]
      (by decide) (by decide) C9row (by decide)
    ⟨h.1, h.2 2 (by decide) (by decide) (by decide)⟩⟩

/-! ## C10: the callers frame is never modified -/

theorem readH_append (h : List DF) (d : DF) (r : ℕ) (hr : r < h.length) :
    readH (h ++ [d]) r = readH h r := by
  unfold readH
  unfold List.getD
  rw [List.get?_eq_getElem?, List.get?_eq_getElem?, List.getElem?_append_left hr]

theorem readH_set_ne (h : List DF) (r q : ℕ) (d : DF) (hne : q ≠ r) :
    readH (writeH h r d) q = readH h q := by
  unfold readH writeH
  unfold List.getD
  rw [List.get?_eq_getElem?, List.get?_eq_getElem?,
    List.getElem?_set_ne (fun he => hne he.symm)]

theorem ensure_H_len (h : List DF) (r : ℕ) :
    h.length ≤ (ensure_year_column_H h r).1.length := by
  simp only [ensure_year_column_H, allocH, writeH]
  split
  · split
    · simp
    · split
      · simp
      · simp
  · simp

theorem ensure_H_preserves (h : List DF) (r q : ℕ) (hq : q < h.length) (hne : q ≠ r) :
    readH (ensure_year_column_H h r).1 q = readH h q := by
  have hne2 : q ≠ h.length := by omega
  simp only [ensure_year_column_H, allocH]
  split
  · split
    · rw [readH_set_ne _ _ _ _ hne2]
      exact readH_append h _ q hq
    · split
      · rw [readH_set_ne _ _ _ _ hne2]
        exact readH_append h _ q hq
      · rw [readH_set_ne _ _ _ _ hne2]
        exact readH_append h _ q hq
  · exact readH_set_ne _ _ _ _ hne

theorem make_tables_H_len (h : List DF) (r : ℕ) (f : Filters) (metric : Option String) :
    h.length ≤ (make_tables_H h r f metric).1.length := by
  unfold make_tables_H
  have h1 := ensure_H_len (h ++ [readH h r]) h.length
  simp only [allocH]
  simp only [List.length_append, List.length_cons, List.length_nil] at h1
  omega

theorem make_tables_H_preserves (h : List DF) (r : ℕ) (f : Filters)
    (metric : Option String) (q : ℕ) (hq : q < h.length) :
    readH (make_tables_H h r f metric).1 q = readH h q := by
  unfold make_tables_H
  simp only [allocH]
  rw [ensure_H_preserves (h ++ [readH h r]) h.length q
    (by simp only [List.length_append, List.length_cons, List.length_nil]; omega)
    (by omega)]
  exact readH_append h _ q hq

theorem filter_and_make_H_preserves (h : List DF) (r : ℕ) (yearMin yearMax : Option ℤ)
    (countries : List String) (metric : Option String) (nationality : Option String)
    (q : ℕ) (hq : q < h.length) :
    readH (filter_and_make_H h r yearMin yearMax countries metric nationality).1 q =
      readH h q := by
  unfold filter_and_make_H
  simp only [allocH]
  set h1 := h ++ [readH h r] with hh1
  have hlen1 : h.length + 1 = h1.length := by simp [hh1]
  set e := ensure_year_column_H h1 h.length with he
  have hlenE : h1.length ≤ e.1.length := he ▸ ensure_H_len h1 h.length
  set mt := make_tables_H e.1 e.2 (mkFilters yearMin yearMax countries nationality)
    metric with hmt
  have hlenM : e.1.length ≤ mt.1.length := hmt ▸ make_tables_H_len e.1 e.2 _ metric
  have step1 : readH e.1 q = readH h q := by
    rw [he, ensure_H_preserves h1 h.length q (by omega) (by omega), hh1]
    exact readH_append h _ q hq
  have step2 : readH mt.1 q = readH e.1 q := by
    rw [hmt]
    exact make_tables_H_preserves e.1 e.2 _ metric q (by omega)
  have step3 :
      readH (ensure_year_column_H (mt.1 ++ [readH e.1 e.2]) mt.1.length).1 q =
        readH mt.1 q := by
    rw [ensure_H_preserves (mt.1 ++ [readH e.1 e.2]) mt.1.length q
      (by simp only [List.length_append, List.length_cons, List.length_nil]; omega)
      (by omega)]
    exact readH_append mt.1 _ q (by omega)
  rw [step3, step2, step1]

/-- C10: make_tables and filter_and_make never modify the frame object the
caller passed in: on the object heap, after either call the frame at the
callers reference is exactly what it was before (year and month derivation
happens on fresh copies; the in-place branch of _ensure_year_column only
ever receives a copy). -/
theorem C10_input_frame_unchanged (h : List DF) (r : ℕ) (f : Filters)
    (metric : Option String) (yearMin yearMax : Option ℤ) (countries : List String)
    (nationality : Option String) (hr : r < h.length) :
    readH (make_tables_H h r f metric).1 r = readH h r ∧
    readH (filter_and_make_H h r yearMin yearMax countries metric nationality).1 r =
      readH h r :=
  ⟨make_tables_H_preserves h r f metric r hr,
   filter_and_make_H_preserves h r yearMin yearMax countries metric nationality r hr⟩

def C10df : DF := ⟨[("CIE_PAX", ⟨Dtype.intT, [Val.num 1]⟩)]⟩

/-- Witness for C10 on a one-object heap holding a frame without ANMOIS
(the branch of _ensure_year_column that assigns into its argument). -/
theorem C10_input_frame_unchanged_witness :
    0 < [C10df].length ∧
    readH (make_tables_H [C10df] 0 {} none).1 0 = readH [C10df] 0 ∧
    readH (filter_and_make_H [C10df] 0 none none [] none none).1 0 =
      readH [C10df] 0 :=
  ⟨by decide,
   (C10_input_frame_unchanged [C10df] 0 {} none none none [] none (by decide)).1,
   (C10_input_frame_unchanged [C10df] 0 {} none none none [] none (by decide)).2⟩
